import Mathlib

/-!
Verification development for the ISS-image-city-classifier repository.

The repository holds two scripts:
  - `ClassificationReportProcessing.py` (ReportPlotter): loads a
    classification-report CSV, drops the three trailing summary rows, and
    renders a per-class F1 bar chart whose title and output filename are
    derived from the input path.
  - `ModelEvaluation.py` (EvaluationRunner): preprocesses a test set, runs a
    trained classifier over it one sample at a time, accumulates Top-1/Top-5
    correctness counts, reports accuracy percentages, and builds a confusion
    matrix via `sklearn.metrics.confusion_matrix`.

The embedding below models the data flow of these scripts.  Python lists are
Lean lists, Python floats are rationals, fallible indexing returns `Option`.
-/

namespace ISS

/-- Row of the classification report after `load_report` renames the columns
to Cities, Precision, Recall, F1_Score, Support
(`ClassificationReportProcessing.py`, line 19). -/
structure Row where
  cities : String
  precision : ℚ
  «recall» : ℚ
  f1_score : ℚ
  support : ℚ
deriving DecidableEq, Repr

/-- Embedding of `load_report` (`ClassificationReportProcessing.py`,
lines 12-22): the DataFrame is the list of data rows of the CSV, and the
slice `classification_report[:-3]` keeps all but the last three rows
(all rows when there are fewer than three).  Column renaming only changes
metadata and is reflected in the field names of `Row`. -/
def load_report (rows : List Row) : List Row :=
  rows.take (rows.length - 3)

/-- Python strings of the path-processing code are modelled as their
character lists, so that splitting and replacement are structural
recursions the kernel can evaluate. -/
abbrev PyStr := List Char

/-- Python `s.split(sep)` for a single-character separator: `[""]` on the
empty string, otherwise the maximal pieces between occurrences of `sep`,
keeping empty pieces. -/
def pySplit (sep : Char) : PyStr → List PyStr
  | [] => [[]]
  | c :: rest =>
      let r := pySplit sep rest
      if c = sep then [] :: r
      else
        match r with
        | [] => [[c]]
        | h :: t => (c :: h) :: t

/-- Python `s.replace(a, b)` for single-character arguments. -/
def pyReplace (a b : Char) (s : PyStr) : PyStr :=
  s.map (fun c => if c = a then b else c)

/-- Python `s.upper()`, restricted to ASCII letters (all characters this
repository feeds it are ASCII). -/
def pyUpper (s : PyStr) : PyStr :=
  s.map Char.toUpper

/-- Python substring test `sub in s`: some suffix of `s` starts with
`sub`. -/
def containsSub (sub : PyStr) : PyStr → Bool
  | [] => sub.isEmpty
  | c :: rest => List.isPrefixOf sub (c :: rest) || containsSub sub rest

/-- Title expression of `plot_f1` (`ClassificationReportProcessing.py`,
line 32): `csv_name.split("/")[2].split("_")[0] + " " +
csv_name.split("_")[2].upper() + " F1 Score"`.  The two `[2]` indexings
raise `IndexError` in Python when the split has fewer than three pieces,
so the result is an `Option`; `split("_")[0]` never fails because a split
always returns at least one piece. -/
def f1_title (csv_name : PyStr) : Option PyStr :=
  match (pySplit '/' csv_name).get? 2, (pySplit '_' csv_name).get? 2 with
  | some piece2, some upiece2 =>
      some ((pySplit '_' piece2).getD 0 [] ++ " ".data ++ pyUpper upiece2 ++ " F1 Score".data)
  | _, _ => none

/-- Title of `plot_f1` including the conditional reassignment
(`ClassificationReportProcessing.py`, lines 32-34): when `"VGG-19"` occurs
in the derived name, the name is reassigned with the very same expression. -/
def plot_f1_title (csv_name : PyStr) : Option PyStr :=
  match f1_title csv_name with
  | none => none
  | some name =>
      if containsSub "VGG-19".data name then f1_title csv_name else some name

/-- Filename written by `plot_f1` (`ClassificationReportProcessing.py`,
line 44): `"../visualisations/f1_scores/" + name.replace(" ", "_") + ".png"`;
`none` when the title derivation raised, in which case no file is written. -/
def plot_f1_file (csv_name : PyStr) : Option PyStr :=
  (plot_f1_title csv_name).map
    (fun name => "../visualisations/f1_scores/".data ++ pyReplace ' ' '_' name ++ ".png".data)

/-- Variant of `plot_f1_file` with the `"VGG-19"` conditional of lines 33-34
removed, used to state that the branch is a no-op. -/
def plot_f1_file_nobranch (csv_name : PyStr) : Option PyStr :=
  (f1_title csv_name).map
    (fun name => "../visualisations/f1_scores/".data ++ pyReplace ' ' '_' name ++ ".png".data)

/-- Modelled from the spec: the documented splitting rule for the
ReportPlotter title, "splitting the input path and filename on fixed
delimiters to extract a dataset-name and architecture-name substring",
written as a total function of the path. -/
def spec_title (csv_name : PyStr) : PyStr :=
  (pySplit '_' ((pySplit '/' csv_name).getD 2 [])).getD 0 [] ++ " ".data ++
    pyUpper ((pySplit '_' csv_name).getD 2 []) ++ " F1 Score".data

/-- Filename written by `create_confusion_matrix`
(`ModelEvaluation.py`, line 115):
`"../visualisations/confusion_matrices/" + title + "_Confusion_Matrix.png"`.
The title is embedded verbatim. -/
def conf_matrix_file (title : PyStr) : PyStr :=
  "../visualisations/confusion_matrices/".data ++ title ++ "_Confusion_Matrix.png".data

/-- Preprocessing steps of the test transform, mirroring the
`vision.transforms.Compose` list (`ModelEvaluation.py`, lines 33-38). -/
inductive TransformStep where
  | centerCrop (size : ℕ)
  | toTensor
  | normalize (mean std : List ℚ)
deriving DecidableEq, Repr

/-- Input size chosen by `load_testing_set_and_transform`
(`ModelEvaluation.py`, lines 28-31): 299 for Inception, 224 otherwise. -/
def input_size (uses_inception : Bool) : ℕ :=
  if uses_inception then 299 else 224

/-- Test transform built by `load_testing_set_and_transform`
(`ModelEvaluation.py`, lines 33-38): center crop to the input size, tensor
conversion, and normalization with the fixed per-channel constants. -/
def test_transform (uses_inception : Bool) : List TransformStep :=
  [ TransformStep.centerCrop (input_size uses_inception),
    TransformStep.toTensor,
    TransformStep.normalize [0.485, 0.456, 0.406] [0.229, 0.224, 0.225] ]

/-- Dispatch in `main` (`ModelEvaluation.py`, lines 129-132):
`uses_inception` is true exactly when the model name is `"InceptionV3"`. -/
def uses_inception_for (model : String) : Bool :=
  model == "InceptionV3"

/-- Embedding of `np.argmax` on the (batch-size-1) score vector
(`ModelEvaluation.py`, line 79): the first index whose entry is a maximum
of the list, and the length when the list is empty (where NumPy raises). -/
def argmax (scores : List ℚ) : ℕ :=
  scores.findIdx (fun x => scores.all (fun y => decide (y ≤ x)))

/-- Index `j` precedes index `i` in the stable descending order on `scores`
used to characterise `torch.topk` membership: a strictly larger entry, or an
equal entry at a smaller index. -/
def beats (scores : List ℚ) (j i : ℕ) : Bool :=
  decide (scores.getD i 0 < scores.getD j 0) ||
    (decide (scores.getD j 0 = scores.getD i 0) && decide (j < i))

/-- Number of indices that precede `i` in the stable descending order. -/
def rankOf (scores : List ℚ) (i : ℕ) : ℕ :=
  ((List.range scores.length).filter (fun j => beats scores j i)).length

/-- Embedding of `predictions.topk(k, dim=1)[1]` (`ModelEvaluation.py`,
line 80): the indices of the `k` largest entries, ties resolved towards
smaller indices. -/
def topk (k : ℕ) (scores : List ℚ) : List ℕ :=
  (List.range scores.length).filter (fun j => rankOf scores j < k)

/-- One test sample as seen by the evaluation loop (`ModelEvaluation.py`,
lines 73-88, batch size 1): the ground-truth class index
(`torch.max(labels).item()`) and the exponentiated model outputs
(`torch.exp(outputs)`), one score per class. -/
structure Sample where
  label : ℕ
  scores : List ℚ
deriving DecidableEq, Repr

/-- Accumulators of the evaluation loop (`ModelEvaluation.py`,
lines 68-88): the running Top-1 and Top-5 correct counts and the collected
ground-truth and prediction class names. -/
structure LoopState where
  top_1_accuracy : ℕ
  top_5_accuracy : ℕ
  all_ground_truth : List String
  all_predictions : List String
deriving DecidableEq, Repr

/-- Body of the evaluation loop (`ModelEvaluation.py`, lines 73-88) for one
sample: append `classes[label]` and `classes[argmax]`, increment the Top-1
count when the two class names coincide, and the Top-5 count when the label
index lies in the Top-5 index set. -/
def stepSample (classes : List String) (st : LoopState) (s : Sample) : LoopState :=
  let prediction_top_1 := argmax s.scores
  let prediction_top_5 := topk 5 s.scores
  let gt := classes.getD s.label ""
  let pr := classes.getD prediction_top_1 ""
  { top_1_accuracy := st.top_1_accuracy + (if gt = pr then 1 else 0)
    top_5_accuracy := st.top_5_accuracy + (if s.label ∈ prediction_top_5 then 1 else 0)
    all_ground_truth := st.all_ground_truth ++ [gt]
    all_predictions := st.all_predictions ++ [pr] }

/-- Full pass of the evaluation loop over the test set. -/
def runEval (classes : List String) (samples : List Sample) : LoopState :=
  samples.foldl (stepSample classes) ⟨0, 0, [], []⟩

/-- Observable behaviour of `make_predictions` (`ModelEvaluation.py`,
lines 51-97): the printed Top-1 and Top-5 accuracy percentages
(`count / len(loader) * 100`, lines 90-91, with batch size 1 so
`len(loader)` is the number of samples) and the returned ground-truth and
prediction lists. -/
def make_predictions (classes : List String) (samples : List Sample) :
    (ℚ × ℚ) × List String × List String :=
  let st := runEval classes samples
  (((st.top_1_accuracy : ℚ) / (samples.length : ℚ) * 100,
    (st.top_5_accuracy : ℚ) / (samples.length : ℚ) * 100),
   st.all_ground_truth, st.all_predictions)

/-- Declarative Top-1 correct count: samples whose predicted class name
equals the ground-truth class name. -/
def top1Count (classes : List String) (samples : List Sample) : ℕ :=
  (samples.filter
    (fun s => classes.getD s.label "" = classes.getD (argmax s.scores) "")).length

/-- Declarative Top-5 correct count: samples whose label index lies in the
Top-5 index set. -/
def top5Count (samples : List Sample) : ℕ :=
  (samples.filter (fun s => s.label ∈ topk 5 s.scores)).length

/-- Number of sample pairs with the given true and predicted class names. -/
def countPairs (ground_truth predictions : List String) (a b : String) : ℕ :=
  ((ground_truth.zip predictions).filter (fun p => p.1 = a ∧ p.2 = b)).length

/-- Matrix returned by `create_confusion_matrix` (`ModelEvaluation.py`,
lines 99-122), that is `metrics.confusion_matrix(ground_truth, predictions,
labels=classes)`: cell `(i, j)` counts the samples whose true class is
`classes[i]` and whose predicted class is `classes[j]`; pairs mentioning a
name outside `classes` are ignored. -/
def create_confusion_matrix (ground_truth predictions classes : List String) :
    List (List ℕ) :=
  classes.map (fun a => classes.map (fun b => countPairs ground_truth predictions a b))

/-! Helper lemmas shared by several claims. -/

/-- The conditional reassignment in `plot_f1` recomputes the very same
expression, so the title with the branch equals the branchless title. -/
lemma plot_f1_title_eq (csv_name : PyStr) : plot_f1_title csv_name = f1_title csv_name := by
  unfold plot_f1_title
  cases h : f1_title csv_name with
  | none => rfl
  | some name =>
      by_cases hc : containsSub "VGG-19".data name = true <;> simp [hc]

/-- When both splits have at least three pieces, the fallible title of the
source equals the total title of the documented splitting rule. -/
lemma f1_title_eq_spec (csv_name : PyStr)
    (h1 : 3 ≤ (pySplit '/' csv_name).length)
    (h2 : 3 ≤ (pySplit '_' csv_name).length) :
    f1_title csv_name = some (spec_title csv_name) := by
  have e1 : (pySplit '/' csv_name).get? 2 = some ((pySplit '/' csv_name).getD 2 []) := by
    rw [List.get?_eq_getElem?, List.getElem?_eq_getElem (by omega),
      List.getD_eq_getElem _ _ (by omega)]
  have e2 : (pySplit '_' csv_name).get? 2 = some ((pySplit '_' csv_name).getD 2 []) := by
    rw [List.get?_eq_getElem?, List.getElem?_eq_getElem (by omega),
      List.getD_eq_getElem _ _ (by omega)]
  unfold f1_title spec_title
  rw [e1, e2]

/-- Every non-empty list of rationals has a maximal element. -/
lemma exists_max (l : List ℚ) (h : l ≠ []) : ∃ x ∈ l, ∀ y ∈ l, y ≤ x := by
  induction l with
  | nil => exact absurd rfl h
  | cons a t ih =>
      cases t with
      | nil => exact ⟨a, by simp⟩
      | cons b m =>
          obtain ⟨x, hx, hmax⟩ := ih (by simp)
          by_cases hax : a ≤ x
          · refine ⟨x, List.mem_cons_of_mem a hx, ?_⟩
            intro y hy
            rcases List.mem_cons.mp hy with rfl | hy
            · exact hax
            · exact hmax y hy
          · refine ⟨a, List.mem_cons_self a _, ?_⟩
            intro y hy
            rcases List.mem_cons.mp hy with rfl | hy
            · exact le_refl y
            · exact le_trans (hmax y hy) (le_of_not_le hax)

/-- On a non-empty score list, `argmax` is a valid index. -/
lemma argmax_lt_length (scores : List ℚ) (h : scores ≠ []) :
    argmax scores < scores.length := by
  unfold argmax
  apply List.findIdx_lt_length_of_exists
  obtain ⟨x, hx, hmax⟩ := exists_max scores h
  refine ⟨x, hx, ?_⟩
  rw [List.all_eq_true]
  intro y hy
  exact decide_eq_true (hmax y hy)

/-- The entry at `argmax` dominates every entry of the list. -/
lemma argmax_le (scores : List ℚ) (h : scores ≠ []) (y : ℚ) (hy : y ∈ scores) :
    y ≤ scores.getD (argmax scores) 0 := by
  have hlt : argmax scores < scores.length := argmax_lt_length scores h
  have hp : (scores.all (fun z => decide (z ≤ scores.get ⟨argmax scores, hlt⟩))) = true := by
    have := @List.findIdx_getElem _ (fun x => scores.all (fun y => decide (y ≤ x))) scores
      (by unfold argmax at hlt; exact hlt)
    simpa [argmax] using this
  rw [List.all_eq_true] at hp
  have := hp y hy
  rw [decide_eq_true_eq] at this
  rw [List.getD_eq_getElem _ _ hlt]
  exact this

/-- Indices strictly before `argmax` do not dominate the whole list. -/
lemma argmax_first (scores : List ℚ) (j : ℕ) (hj : j < argmax scores)
    (hlen : j < scores.length) :
    ¬ ∀ y ∈ scores, y ≤ scores.getD j 0 := by
  intro hall
  have hfalse : (scores.all (fun y => decide (y ≤ scores.get ⟨j, hlen⟩))) = false := by
    have := @List.not_of_lt_findIdx _ (fun x => scores.all (fun y => decide (y ≤ x)))
      scores j (by unfold argmax at hj; exact hj)
    simpa using this
  rw [List.all_eq_false] at hfalse
  obtain ⟨y, hy, hny⟩ := hfalse
  rw [decide_eq_true_eq] at hny  -- hmm, hny : ¬ (decide _ = true)
  exact hny (by
    have := hall y hy
    rwa [List.getD_eq_getElem _ _ hlen] at this)

/-- No index beats `argmax` in the stable descending order, so its rank
is zero. -/
lemma rank_argmax (scores : List ℚ) (h : scores ≠ []) :
    rankOf scores (argmax scores) = 0 := by
  unfold rankOf
  rw [List.length_eq_zero, List.filter_eq_nil_iff]
  intro j hj
  rw [List.mem_range] at hj
  unfold beats
  simp only [Bool.or_eq_true, Bool.and_eq_true, decide_eq_true_eq, not_or, not_and]
  constructor
  · have hjmem : scores.getD j 0 ∈ scores := by
      rw [List.getD_eq_getElem _ _ hj]
      exact List.getElem_mem hj
    exact not_lt.mpr (argmax_le scores h _ hjmem)
  · intro heq hlt
    refine argmax_first scores j hlt hj ?_
    intro y hy
    rw [heq]
    exact argmax_le scores h y hy

/-- The Top-1 index always lies in the Top-`k` index set for positive `k`. -/
lemma argmax_mem_topk (scores : List ℚ) (h : scores ≠ []) (k : ℕ) (hk : 0 < k) :
    argmax scores ∈ topk k scores := by
  unfold topk
  rw [List.mem_filter]
  refine ⟨List.mem_range.mpr (argmax_lt_length scores h), ?_⟩
  rw [decide_eq_true_eq, rank_argmax scores h]
  exact hk

/-- The running Top-1 counter of the loop equals its initial value plus the
declarative Top-1 correct count. -/
lemma foldl_top1 (classes : List String) (samples : List Sample) (st : LoopState) :
    (samples.foldl (stepSample classes) st).top_1_accuracy =
      st.top_1_accuracy + top1Count classes samples := by
  induction samples generalizing st with
  | nil => simp [top1Count]
  | cons s ss ih =>
      rw [List.foldl_cons, ih]
      unfold top1Count stepSample
      rw [List.filter_cons]
      by_cases h : classes[s.label]?.getD "" = classes[argmax s.scores]?.getD "" <;>
        simp [h, List.getD] <;> omega

/-- The running Top-5 counter of the loop equals its initial value plus the
declarative Top-5 correct count. -/
lemma foldl_top5 (classes : List String) (samples : List Sample) (st : LoopState) :
    (samples.foldl (stepSample classes) st).top_5_accuracy =
      st.top_5_accuracy + top5Count samples := by
  induction samples generalizing st with
  | nil => simp [top5Count]
  | cons s ss ih =>
      rw [List.foldl_cons, ih]
      unfold top5Count stepSample
      rw [List.filter_cons]
      by_cases h : s.label ∈ topk 5 s.scores <;>
        simp [h] <;> omega

/-- The accuracy percentages printed by `make_predictions` are the
declarative correct counts over the sample count, times 100. -/
lemma make_predictions_acc (classes : List String) (samples : List Sample) :
    (make_predictions classes samples).1.1 =
      (top1Count classes samples : ℚ) / (samples.length : ℚ) * 100 ∧
    (make_predictions classes samples).1.2 =
      (top5Count samples : ℚ) / (samples.length : ℚ) * 100 := by
  simp only [make_predictions, runEval]
  rw [foldl_top1, foldl_top5]
  exact ⟨by simp, by simp⟩

/-- Sum of a pointwise sum of maps splits into two sums. -/
lemma sum_map_add {α : Type} (l : List α) (f g : α → ℕ) :
    (l.map (fun b => f b + g b)).sum = (l.map f).sum + (l.map g).sum := by
  induction l with
  | nil => simp
  | cons a t ih => simp [ih]; omega

/-- An indicator sum over a list avoiding `x` vanishes. -/
lemma sum_map_indicator_zero (l : List String) (x : String) (hx : x ∉ l) :
    (l.map (fun b => if x = b then 1 else 0)).sum = 0 := by
  induction l with
  | nil => simp
  | cons a t ih =>
      have hxa : x ≠ a := fun h => hx (h ▸ List.mem_cons_self a t)
      have hxt : x ∉ t := fun h => hx (List.mem_cons_of_mem a h)
      simp [hxa, ih hxt]

/-- An indicator sum over a duplicate-free list containing `x` is one. -/
lemma sum_map_indicator (l : List String) (x : String) (hnodup : l.Nodup)
    (hx : x ∈ l) :
    (l.map (fun b => if x = b then 1 else 0)).sum = 1 := by
  induction l with
  | nil => cases hx
  | cons a t ih =>
      rcases List.nodup_cons.mp hnodup with ⟨hat, ht⟩
      rcases List.mem_cons.mp hx with rfl | hxt
      · simp [sum_map_indicator_zero t x hat]
      · have hxa : x ≠ a := fun h => hat (h ▸ hxt)
        simp [hxa, ih ht hxt]

/-- Summing the per-predicted-class pair counts over a duplicate-free class
list recovers the count of pairs with the given true class. -/
lemma sum_countPairs (ps : List (String × String)) (classes : List String)
    (a : String) (hnodup : classes.Nodup) (hmem : ∀ p ∈ ps, p.2 ∈ classes) :
    (classes.map (fun b => ((ps.filter (fun p => p.1 = a ∧ p.2 = b)).length))).sum =
      (ps.filter (fun p => p.1 = a)).length := by
  induction ps with
  | nil => simp
  | cons p t ih =>
      have hp2 : p.2 ∈ classes := hmem p (List.mem_cons_self p t)
      have hrest : ∀ q ∈ t, q.2 ∈ classes := fun q hq => hmem q (List.mem_cons_of_mem p hq)
      have hsplit : ∀ b : String,
          ((p :: t).filter (fun q => q.1 = a ∧ q.2 = b)).length =
            (t.filter (fun q => q.1 = a ∧ q.2 = b)).length +
              (if p.1 = a then (if p.2 = b then 1 else 0) else 0) := by
        intro b
        rw [List.filter_cons]
        by_cases h1 : p.1 = a
        · by_cases h2 : p.2 = b
          · simp [h1, h2]
          · simp [h1, h2]
        · simp [h1]
      calc (classes.map (fun b => (((p :: t).filter (fun q => q.1 = a ∧ q.2 = b)).length))).sum
          = (classes.map (fun b => (t.filter (fun q => q.1 = a ∧ q.2 = b)).length +
              (if p.1 = a then (if p.2 = b then 1 else 0) else 0))).sum := by
            exact congrArg List.sum (List.map_congr_left (fun b _ => hsplit b))
        _ = (classes.map (fun b => (t.filter (fun q => q.1 = a ∧ q.2 = b)).length)).sum +
              (classes.map (fun b => if p.1 = a then (if p.2 = b then 1 else 0) else 0)).sum := by
            exact sum_map_add classes _ _
        _ = (t.filter (fun q => q.1 = a)).length +
              (if p.1 = a then 1 else 0) := by
            rw [ih hrest]
            congr 1
            by_cases h1 : p.1 = a
            · simp only [h1, if_true]
              exact sum_map_indicator classes p.2 hnodup hp2
            · simp [h1]
        _ = ((p :: t).filter (fun q => q.1 = a)).length := by
            rw [List.filter_cons]
            by_cases h1 : p.1 = a
            · simp [h1]
            · simp [h1]

/-- Filtering the zip on the first component counts like filtering the first
list, when both lists have equal length. -/
lemma filter_fst_zip (gt preds : List String) (a : String)
    (hlen : gt.length = preds.length) :
    ((gt.zip preds).filter (fun p => p.1 = a)).length =
      (gt.filter (fun c => c = a)).length := by
  induction gt generalizing preds with
  | nil => simp
  | cons g t ih =>
      cases preds with
      | nil => simp at hlen
      | cons q qs =>
          have hlen' : t.length = qs.length := by
            simpa using hlen
          rw [List.zip_cons_cons, List.filter_cons, List.filter_cons]
          by_cases h : g = a <;> simp [h, ih qs hlen']

/-! Claims. -/

/-- C1: for every valid input table of N data rows followed by 3 trailing
summary rows, `load_report` returns exactly the N data rows, in the
original order, with the 3 trailing summary rows removed. -/
theorem C1_load_report_drops_summary_rows (data summary : List Row)
    (h : summary.length = 3) :
    load_report (data ++ summary) = data ∧
    (load_report (data ++ summary)).length = data.length := by
  have key : load_report (data ++ summary) = data := by
    unfold load_report
    rw [List.length_append, h, Nat.add_sub_cancel]
    exact List.take_left data summary
  exact ⟨key, by rw [key]⟩

/-- Witness for C1 at a one-row report followed by the accuracy, macro-avg
and weighted-avg summary rows. -/
theorem C1_witness :
    load_report ([(⟨"madrid", 1, 1, 1, 5⟩ : Row)] ++
      [⟨"accuracy", 0, 0, 0, 0⟩, ⟨"macro avg", 0, 0, 0, 0⟩,
       ⟨"weighted avg", 0, 0, 0, 0⟩]) = [(⟨"madrid", 1, 1, 1, 5⟩ : Row)] ∧
    (load_report ([(⟨"madrid", 1, 1, 1, 5⟩ : Row)] ++
      [⟨"accuracy", 0, 0, 0, 0⟩, ⟨"macro avg", 0, 0, 0, 0⟩,
       ⟨"weighted avg", 0, 0, 0, 0⟩])).length =
      [(⟨"madrid", 1, 1, 1, 5⟩ : Row)].length :=
  C1_load_report_drops_summary_rows _ _ rfl

/-- C2: on a non-empty test set where the Top-1 prediction index equals the
ground-truth label on every sample, `make_predictions` reports both Top-1
and Top-5 accuracy equal to 100. -/
theorem C2_perfect_classifier_accuracy (classes : List String)
    (samples : List Sample) (hne : samples ≠ [])
    (hperfect : ∀ s ∈ samples, s.scores ≠ [] ∧ argmax s.scores = s.label) :
    (make_predictions classes samples).1.1 = 100 ∧
    (make_predictions classes samples).1.2 = 100 := by
  obtain ⟨h1, h2⟩ := make_predictions_acc classes samples
  have hn : (samples.length : ℚ) ≠ 0 := by
    have hlen : samples.length ≠ 0 := fun hh => hne (List.length_eq_zero.mp hh)
    exact_mod_cast hlen
  have hc1 : top1Count classes samples = samples.length := by
    unfold top1Count
    have hfe : samples.filter
        (fun s => classes.getD s.label "" = classes.getD (argmax s.scores) "") =
        samples := by
      rw [List.filter_eq_self]
      intro s hs
      rw [decide_eq_true_eq, (hperfect s hs).2]
    rw [hfe]
  have hc5 : top5Count samples = samples.length := by
    unfold top5Count
    have hfe : samples.filter (fun s => s.label ∈ topk 5 s.scores) = samples := by
      rw [List.filter_eq_self]
      intro s hs
      rw [decide_eq_true_eq, ← (hperfect s hs).2]
      exact argmax_mem_topk s.scores (hperfect s hs).1 5 (by omega)
    rw [hfe]
  constructor
  · rw [h1, hc1, div_self hn, one_mul]
  · rw [h2, hc5, div_self hn, one_mul]

/-- Witness for C2 at a one-sample test set whose Top-1 prediction is the
ground-truth class. -/
theorem C2_witness :
    (make_predictions ["amsterdam", "berlin", "cairo", "dakar", "exeter"]
      [⟨0, [5, 1, 1, 1, 1]⟩]).1.1 = 100 ∧
    (make_predictions ["amsterdam", "berlin", "cairo", "dakar", "exeter"]
      [⟨0, [5, 1, 1, 1, 1]⟩]).1.2 = 100 :=
  C2_perfect_classifier_accuracy _ _ (by decide) (by decide)

/-- C3: on a non-empty test set where every sample has its ground-truth
label inside the Top-5 index set but a Top-1 predicted class different from
the ground-truth class, `make_predictions` reports Top-1 accuracy 0 and
Top-5 accuracy 100. -/
theorem C3_top5_only_classifier_accuracy (classes : List String)
    (samples : List Sample) (hne : samples ≠ [])
    (h : ∀ s ∈ samples, s.label ∈ topk 5 s.scores ∧
      classes.getD s.label "" ≠ classes.getD (argmax s.scores) "") :
    (make_predictions classes samples).1.1 = 0 ∧
    (make_predictions classes samples).1.2 = 100 := by
  obtain ⟨h1, h2⟩ := make_predictions_acc classes samples
  have hn : (samples.length : ℚ) ≠ 0 := by
    have hlen : samples.length ≠ 0 := fun hh => hne (List.length_eq_zero.mp hh)
    exact_mod_cast hlen
  have hc1 : top1Count classes samples = 0 := by
    unfold top1Count
    rw [List.length_eq_zero, List.filter_eq_nil_iff]
    intro s hs
    rw [decide_eq_true_eq]
    exact (h s hs).2
  have hc5 : top5Count samples = samples.length := by
    unfold top5Count
    have hfe : samples.filter (fun s => s.label ∈ topk 5 s.scores) = samples := by
      rw [List.filter_eq_self]
      intro s hs
      rw [decide_eq_true_eq]
      exact (h s hs).1
    rw [hfe]
  constructor
  · rw [h1, hc1]
    simp
  · rw [h2, hc5, div_self hn, one_mul]

/-- Witness for C3 at a one-sample test set whose Top-1 guess is wrong but
whose Top-5 set holds the true label. -/
theorem C3_witness :
    (make_predictions ["amsterdam", "berlin", "cairo", "dakar", "exeter"]
      [⟨1, [5, 1, 1, 1, 1]⟩]).1.1 = 0 ∧
    (make_predictions ["amsterdam", "berlin", "cairo", "dakar", "exeter"]
      [⟨1, [5, 1, 1, 1, 1]⟩]).1.2 = 100 :=
  C3_top5_only_classifier_accuracy _ _ (by decide) (by decide)

/-- C4: after the full pass, each reported accuracy percentage is the
running correct counter divided by the number of evaluated samples times
100, and each running counter equals the declarative count of correct
samples. -/
theorem C4_reported_accuracy_formula (classes : List String)
    (samples : List Sample) (hne : samples ≠ []) :
    (make_predictions classes samples).1.1 =
      ((runEval classes samples).top_1_accuracy : ℚ) / (samples.length : ℚ) * 100 ∧
    (runEval classes samples).top_1_accuracy = top1Count classes samples ∧
    (make_predictions classes samples).1.2 =
      ((runEval classes samples).top_5_accuracy : ℚ) / (samples.length : ℚ) * 100 ∧
    (runEval classes samples).top_5_accuracy = top5Count samples := by
  have e1 : (runEval classes samples).top_1_accuracy = top1Count classes samples := by
    unfold runEval
    rw [foldl_top1]
    simp
  have e5 : (runEval classes samples).top_5_accuracy = top5Count samples := by
    unfold runEval
    rw [foldl_top5]
    simp
  obtain ⟨h1, h2⟩ := make_predictions_acc classes samples
  exact ⟨by rw [h1, e1], e1, by rw [h2, e5], e5⟩

/-- Witness for C4 at a two-sample test set. -/
theorem C4_witness :
    (make_predictions ["amsterdam", "berlin", "cairo", "dakar", "exeter"]
        [⟨0, [5, 1, 1, 1, 1]⟩, ⟨1, [4, 1, 1, 1, 1]⟩]).1.1 =
      ((runEval ["amsterdam", "berlin", "cairo", "dakar", "exeter"]
        [⟨0, [5, 1, 1, 1, 1]⟩, ⟨1, [4, 1, 1, 1, 1]⟩]).top_1_accuracy : ℚ) /
        (([⟨0, [5, 1, 1, 1, 1]⟩, ⟨1, [4, 1, 1, 1, 1]⟩] : List Sample).length : ℚ) * 100 ∧
    (runEval ["amsterdam", "berlin", "cairo", "dakar", "exeter"]
        [⟨0, [5, 1, 1, 1, 1]⟩, ⟨1, [4, 1, 1, 1, 1]⟩]).top_1_accuracy =
      top1Count ["amsterdam", "berlin", "cairo", "dakar", "exeter"]
        [⟨0, [5, 1, 1, 1, 1]⟩, ⟨1, [4, 1, 1, 1, 1]⟩] ∧
    (make_predictions ["amsterdam", "berlin", "cairo", "dakar", "exeter"]
        [⟨0, [5, 1, 1, 1, 1]⟩, ⟨1, [4, 1, 1, 1, 1]⟩]).1.2 =
      ((runEval ["amsterdam", "berlin", "cairo", "dakar", "exeter"]
        [⟨0, [5, 1, 1, 1, 1]⟩, ⟨1, [4, 1, 1, 1, 1]⟩]).top_5_accuracy : ℚ) /
        (([⟨0, [5, 1, 1, 1, 1]⟩, ⟨1, [4, 1, 1, 1, 1]⟩] : List Sample).length : ℚ) * 100 ∧
    (runEval ["amsterdam", "berlin", "cairo", "dakar", "exeter"]
        [⟨0, [5, 1, 1, 1, 1]⟩, ⟨1, [4, 1, 1, 1, 1]⟩]).top_5_accuracy =
      top5Count [⟨0, [5, 1, 1, 1, 1]⟩, ⟨1, [4, 1, 1, 1, 1]⟩] :=
  C4_reported_accuracy_formula _ _ (by decide)

/-- C5: on ground truth [A, B, A], predictions [A, A, A] and class order
[A, B], `create_confusion_matrix` returns [[2, 0], [1, 0]]. -/
theorem C5_confusion_matrix_concrete :
    create_confusion_matrix ["A", "B", "A"] ["A", "A", "A"] ["A", "B"] =
      [[2, 0], [1, 0]] := by
  decide

/-- C6: the confusion matrix is square with dimension the number of
classes, and row i sums to the number of ground-truth entries equal to
class i, for equal-length inputs whose predictions are all drawn from the
duplicate-free class list. -/
theorem C6_confusion_matrix_square_row_sums
    (ground_truth predictions classes : List String)
    (hlen : ground_truth.length = predictions.length)
    (hpred : ∀ p ∈ predictions, p ∈ classes)
    (hnodup : classes.Nodup) :
    (create_confusion_matrix ground_truth predictions classes).length =
      classes.length ∧
    (∀ row ∈ create_confusion_matrix ground_truth predictions classes,
      row.length = classes.length) ∧
    (∀ i, i < classes.length →
      ((create_confusion_matrix ground_truth predictions classes).getD i []).sum =
        (ground_truth.filter (fun c => c = classes.getD i "")).length) := by
  refine ⟨by simp [create_confusion_matrix], ?_, ?_⟩
  · intro row hrow
    unfold create_confusion_matrix at hrow
    obtain ⟨a, _, rfl⟩ := List.mem_map.mp hrow
    simp
  · intro i hi
    have hi2 : i < (create_confusion_matrix ground_truth predictions classes).length := by
      simpa [create_confusion_matrix] using hi
    have hrow : (create_confusion_matrix ground_truth predictions classes).getD i [] =
        classes.map (fun b => countPairs ground_truth predictions (classes.getD i "") b) := by
      rw [List.getD_eq_getElem _ _ hi2]
      unfold create_confusion_matrix
      rw [List.getElem_map, List.getD_eq_getElem _ _ hi]
    rw [hrow]
    unfold countPairs
    have hmem : ∀ p ∈ ground_truth.zip predictions, p.2 ∈ classes := by
      intro p hp
      exact hpred p.2 (List.of_mem_zip hp).2
    rw [sum_countPairs (ground_truth.zip predictions) classes
      (classes.getD i "") hnodup hmem]
    exact filter_fst_zip ground_truth predictions (classes.getD i "") hlen

/-- Witness for C6 at a two-class example. -/
theorem C6_witness :
    (create_confusion_matrix ["x", "y"] ["y", "y"] ["x", "y"]).length =
      (["x", "y"] : List String).length ∧
    (∀ row ∈ create_confusion_matrix ["x", "y"] ["y", "y"] ["x", "y"],
      row.length = (["x", "y"] : List String).length) ∧
    (∀ i, i < (["x", "y"] : List String).length →
      ((create_confusion_matrix ["x", "y"] ["y", "y"] ["x", "y"]).getD i []).sum =
        ((["x", "y"] : List String).filter
          (fun c => c = (["x", "y"] : List String).getD i "")).length) :=
  C6_confusion_matrix_square_row_sums _ _ _ (by decide) (by decide) (by decide)

/-- C7 counterexample: on the input path "report.csv" the title derivation
of `plot_f1` raises an IndexError, so no output file is written; the claim
that every input path yields exactly one output file fails here. -/
theorem C7_counterexample : plot_f1_file "report.csv".data = none := by
  decide

/-- C7 (amended): for every input path on which the documented splitting
rule is defined, i.e. with at least three slash-separated pieces and at
least three underscore-separated pieces, `plot_f1` writes exactly one
output file, whose name is the deterministic function of the path given by
the splitting rule. -/
theorem C7_plot_f1_single_deterministic_file (csv_name : PyStr)
    (h1 : 3 ≤ (pySplit '/' csv_name).length)
    (h2 : 3 ≤ (pySplit '_' csv_name).length) :
    plot_f1_file csv_name =
      some ("../visualisations/f1_scores/".data ++
        pyReplace ' ' '_' (spec_title csv_name) ++ ".png".data) := by
  unfold plot_f1_file
  rw [plot_f1_title_eq, f1_title_eq_spec csv_name h1 h2]
  rfl

/-- Witness for C7 at a well-formed report path. -/
theorem C7_witness :
    plot_f1_file "../classification_reports/places365_alexnet_report.csv".data =
      some ("../visualisations/f1_scores/".data ++
        pyReplace ' ' '_'
          (spec_title "../classification_reports/places365_alexnet_report.csv".data) ++
        ".png".data) :=
  C7_plot_f1_single_deterministic_file _ (by decide) (by decide)

/-- C8 counterexample: the confusion-matrix filename embeds the title
verbatim, so for the title "A B" it differs from the name obtained by
replacing spaces with underscores; the claim that both pipelines replace
spaces fails. -/
theorem C8_counterexample :
    conf_matrix_file "A B".data ≠
      "../visualisations/confusion_matrices/".data ++
        pyReplace ' ' '_' "A B".data ++ "_Confusion_Matrix.png".data := by
  decide

/-- C8 (amended): the F1-chart filename is derived from the computed title
with every space replaced by an underscore (so it holds no space), while
the confusion-matrix filename embeds the title verbatim, keeping any
space it holds. -/
theorem C8_output_filenames (title csv_name name : PyStr)
    (h : plot_f1_title csv_name = some name) :
    plot_f1_file csv_name =
      some ("../visualisations/f1_scores/".data ++
        pyReplace ' ' '_' name ++ ".png".data) ∧
    ' ' ∉ pyReplace ' ' '_' name ∧
    (' ' ∈ title → ' ' ∈ conf_matrix_file title) := by
  refine ⟨?_, ?_, ?_⟩
  · unfold plot_f1_file
    rw [h]
    rfl
  · unfold pyReplace
    intro hmem
    obtain ⟨c, _, hcc⟩ := List.mem_map.mp hmem
    by_cases hsp : c = ' '
    · rw [if_pos hsp] at hcc
      exact absurd hcc (by decide)
    · rw [if_neg hsp] at hcc
      exact hsp hcc
  · intro hsp
    unfold conf_matrix_file
    exact List.mem_append.mpr (Or.inl (List.mem_append.mpr (Or.inr hsp)))

/-- Witness for C8 at a well-formed report path and a spaced title. -/
theorem C8_witness :
    plot_f1_file "../classification_reports/places365_alexnet_report.csv".data =
      some ("../visualisations/f1_scores/".data ++
        pyReplace ' ' '_' "places365 ALEXNET F1 Score".data ++ ".png".data) ∧
    ' ' ∉ pyReplace ' ' '_' "places365 ALEXNET F1 Score".data ∧
    (' ' ∈ "A B".data → ' ' ∈ conf_matrix_file "A B".data) :=
  C8_output_filenames "A B".data _ _ (by decide)

/-- C9: the test transform center-crops to 299 px exactly for the model
name "InceptionV3" and to 224 px for every other model name, and always
normalizes with the fixed per-channel mean and standard deviation. -/
theorem C9_preprocessing_transform (model : String) :
    test_transform (uses_inception_for model) =
      [TransformStep.centerCrop (if model = "InceptionV3" then 299 else 224),
       TransformStep.toTensor,
       TransformStep.normalize [0.485, 0.456, 0.406] [0.229, 0.224, 0.225]] := by
  unfold test_transform input_size uses_inception_for
  by_cases h : model = "InceptionV3" <;> simp [h]

/-- C10: the "VGG-19" conditional branch of `plot_f1` reassigns the name
with the expression already evaluated, so the computed title and the
written file are those of the version with the branch removed. -/
theorem C10_vgg_branch_is_noop (csv_name : PyStr) :
    plot_f1_title csv_name = f1_title csv_name ∧
    plot_f1_file csv_name = plot_f1_file_nobranch csv_name := by
  refine ⟨plot_f1_title_eq csv_name, ?_⟩
  unfold plot_f1_file plot_f1_file_nobranch
  rw [plot_f1_title_eq]

end ISS
